import Mathlib

/-!
Verification development for the esp-smart-lock repository.

Part 1 embeds the firmware registry (`ota_server/main.go`): the global
`versions.latest` pointer plus the flat firmware directory are modelled as a
`RegistryState`; the HTTP handlers `uploadFirmware`, `getFirmware`,
`listFirmware` and `deleteFirmware` become pure functions over that state,
with filesystem failures injected through an explicit environment record.

Part 2 embeds the device sketch (`sketch/sketch.ino`): the actuator pin,
packet counter and baked-in firmware version form a `DeviceState`; the UDP
branch of `loop()` becomes `processPacket` (emitting an explicit trace of
actuator actions for the blocking pulse), and `checkForUpdate` becomes a
function over an environment recording connectivity and the OTA library's
result.  The OLED display and serial logging are external peripherals and
carry no modelled state.
-/

namespace OtaServer

/-- Firmware payload bytes (contents of a `firmware_<v>.bin` file). -/
abbrev Bytes := List Nat

/-- HTTP method of a request, as dispatched on by every handler. -/
inductive Method
  | GET
  | POST
  | DELETE
  | other
  deriving DecidableEq, Repr

/-- The flat firmware directory: one `firmware_<version>.bin` file per
version.  Modelled as an association list from version to payload bytes;
filenames are derived deterministically from the version, so keys are kept
unique by construction. -/
abbrev Store := List (String × Bytes)

/-- `os.Stat` / reading the file for a version: `some` iff
`firmware_<v>.bin` exists. -/
def storeFind (v : String) : Store → Option Bytes
  | [] => none
  | (k, b) :: rest => if k = v then some b else storeFind v rest

/-- `os.Remove` of `firmware_<v>.bin` (filenames are unique, so removing by
key removes the one file). -/
def storeRemove (v : String) (st : Store) : Store :=
  st.filter (fun p => p.1 != v)

/-- `os.Create` + `io.Copy` writing `firmware_<v>.bin`: creates or
overwrites the file for `v`. -/
def storeInsert (v : String) (b : Bytes) (st : Store) : Store :=
  (v, b) :: storeRemove v st

/-- Mutable server state: the `versions.latest` pointer (initialised to
"1.1.0" in `main.go`) and the firmware directory. -/
structure RegistryState where
  latest : String
  store : Store
  deriving DecidableEq, Repr

/-- The server's state at startup: `versions.latest = "1.1.0"`, empty
firmware directory (`os.MkdirAll` just created it). -/
def initialRegistry : RegistryState := { latest := "1.1.0", store := [] }

/-- Outcome of `uploadFirmware`, one constructor per `http.Error` /
success path in the handler. -/
inductive UploadResult
  | methodNotAllowed        -- 405 "Method not allowed"
  | parseError              -- 400 "Unable to parse form"
  | noFile                  -- 400 "Unable to retrieve file"
  | noVersion               -- 400 "Version not specified"
  | createError             -- 500 "Unable to create file"
  | writeError              -- 500 "Unable to save file"
  | ok                      -- 200 "Firmware version %s uploaded successfully"
  deriving DecidableEq, Repr

/-- Environment for one `uploadFirmware` call: whether
`r.ParseMultipartForm(10 << 20)` succeeds (the `10 << 20` argument is only
the in-memory buffering threshold of Go's multipart parser — larger file
parts spill to temporary files and are not rejected), whether `os.Create`
succeeds, whether `io.Copy` runs to completion, and the bytes left in the
freshly created (truncated) file if `io.Copy` fails midway. -/
structure UploadEnv where
  parseOk : Bool
  createOk : Bool
  writeOk : Bool
  truncBytes : Bytes
  deriving DecidableEq, Repr

/-- An upload request: HTTP method, the `version` form value (`""` when the
field is missing — Go's `FormValue` returns the empty string then), and the
`firmware` file part (`none` when `r.FormFile("firmware")` errors). -/
structure UploadReq where
  method : Method
  version : String
  payload : Option Bytes
  deriving DecidableEq, Repr

/-- `uploadFirmware` (main.go:145-222).  Checks, in handler order: method,
form parsing, file part, version field; then updates `versions.latest`
under the lock, and only afterwards creates and writes the file, reporting
a 500 on either filesystem failure. -/
def uploadFirmware (env : UploadEnv) (req : UploadReq) (s : RegistryState) :
    RegistryState × UploadResult :=
  if req.method ≠ Method.POST then (s, .methodNotAllowed)
  else if env.parseOk = false then (s, .parseError)
  else
    match req.payload with
    | none => (s, .noFile)
    | some bytes =>
      if req.version = "" then (s, .noVersion)
      else
        -- versions.Lock(); versions.latest = version; versions.Unlock()
        let s1 : RegistryState := { s with latest := req.version }
        if env.createOk = false then (s1, .createError)
        else if env.writeOk = false then
          -- os.Create truncated the file; io.Copy stopped partway
          ({ s1 with store := storeInsert req.version env.truncBytes s1.store },
            .writeError)
        else
          ({ s1 with store := storeInsert req.version bytes s1.store }, .ok)

/-- Outcome of `getFirmware`. -/
inductive FetchResult
  | methodNotAllowed                       -- 405
  | notFound                               -- 404 "Firmware not found"
  | notModified                            -- 304, no body
  | payload (bytes : Bytes) (md5Header : String)  -- 200 body + x-MD5 header
  deriving DecidableEq, Repr

/-- A fetch request: HTTP method, the `version` query parameter (`""` when
absent — `r.URL.Query().Get` returns the empty string then), and the client
version resolved by `getClientVersion` from the `x-esp8266-version` header
or the user agent. -/
structure FetchReq where
  method : Method
  requestedVersion : String
  clientVersion : String
  deriving DecidableEq, Repr

/-- `getFirmware` (main.go:225-289), parametrised by the content-hash
function standing for `crypto/md5` (`getMD5Hash` re-reads the stored file
and hashes its bytes on every call; nothing is cached).  Handler order:
method check; resolve the target version (explicit query parameter wins,
else `versions.latest`); `os.Stat` → 404 when the file is missing; the 304
short-circuit only when no explicit version was requested and the client
version equals the target; otherwise serve the bytes with the `x-MD5`
header freshly computed from them. -/
def getFirmware (md5Hex : Bytes → String) (req : FetchReq) (s : RegistryState) :
    FetchResult :=
  if req.method ≠ Method.GET then .methodNotAllowed
  else
    let targetVersion :=
      if req.requestedVersion ≠ "" then req.requestedVersion else s.latest
    match storeFind targetVersion s.store with
    | none => .notFound
    | some bytes =>
      if req.requestedVersion = "" ∧ req.clientVersion = targetVersion then
        .notModified
      else
        .payload bytes (md5Hex bytes)

/-- One entry of the `/list` response (`FirmwareInfo` in main.go; the
`modified` timestamp is environment time and is not modelled).  The
`version` field is recovered from the filename
`firmware_<v>.bin` by trimming the fixed prefix and suffix, which inverts
the naming scheme, so it equals the stored version. -/
structure FirmwareInfo where
  version : String
  filename : String
  size : Nat
  md5 : String
  isLatest : Bool
  downloadURL : String
  deriving DecidableEq, Repr

/-- Outcome of `listFirmware`. -/
inductive ListResult
  | methodNotAllowed
  | ok (currentVersion : String) (entries : List FirmwareInfo)
  deriving DecidableEq, Repr

/-- The entries built by the loop of `listFirmware` (main.go:347-368): one
`FirmwareInfo` per `.bin` file in the directory, marking `is_latest`
exactly when the extracted version equals `versions.latest`, with the MD5
recomputed from the file's bytes. -/
def listEntries (md5Hex : Bytes → String) (s : RegistryState) : List FirmwareInfo :=
  s.store.map (fun p =>
    { version := p.1
      filename := "firmware_" ++ p.1 ++ ".bin"
      size := p.2.length
      md5 := md5Hex p.2
      isLatest := p.1 == s.latest
      downloadURL := "/firmware?version=" ++ p.1 })

/-- `listFirmware` (main.go:310-384): method check, then the directory walk
producing the metadata entries together with the current version. -/
def listFirmware (md5Hex : Bytes → String) (method : Method) (s : RegistryState) :
    ListResult :=
  if method ≠ Method.GET then .methodNotAllowed
  else .ok s.latest (listEntries md5Hex s)

/-- Outcome of `deleteFirmware`. -/
inductive DeleteResult
  | methodNotAllowed        -- 405
  | noVersion               -- 400 "Version not specified"
  | notFound                -- 404 "Firmware not found"
  | removeError             -- 500 "Failed to delete firmware"
  | ok                      -- 200 "Firmware version %s deleted successfully"
  deriving DecidableEq, Repr

/-- A delete request: method and the `version` query parameter (`""` when
absent). -/
structure DeleteReq where
  method : Method
  version : String
  deriving DecidableEq, Repr

/-- `deleteFirmware` (main.go:387-431): method check, required `version`
parameter, `os.Stat` existence check → 404, then `os.Remove` (whose own
failure path needs the file to vanish between Stat and Remove — with the
store as the one source of truth the remove of an existing file succeeds).
`versions.latest` is never touched. -/
def deleteFirmware (req : DeleteReq) (s : RegistryState) :
    RegistryState × DeleteResult :=
  if req.method ≠ Method.DELETE then (s, .methodNotAllowed)
  else if req.version = "" then (s, .noVersion)
  else
    match storeFind req.version s.store with
    | none => (s, .notFound)
    | some _ => ({ s with store := storeRemove req.version s.store }, .ok)

/-- `getVersion` (main.go:292-307): reports `versions.latest`. -/
def getVersion (method : Method) (s : RegistryState) : Option String :=
  if method ≠ Method.GET then none else some s.latest

end OtaServer

namespace Sketch

/-- The lock state of the spec's command/actuator state machine, read off
the actuator pin: `LED_PIN` HIGH means the actuator is de-energized
(locked); LOW means energized (unlocking). -/
inductive LockState
  | Locked
  | Unlocking
  deriving DecidableEq, Repr

/-- Device runtime state: the actuator pin level (`ledHigh = true` is the
`digitalWrite(LED_PIN, HIGH)` level: LED off, actuator de-energized), the
global `packetCount`, and the firmware version baked in at build time
(`%%FIRMWARE_VERSION%%`, immutable for the process lifetime).  The OLED
display and serial log are write-only peripherals and carry no state the
program reads back. -/
structure DeviceState where
  ledHigh : Bool
  packetCount : Nat
  runningVersion : String
  deriving DecidableEq, Repr

/-- Lock state as a function of the actuator pin. -/
def lockState (s : DeviceState) : LockState :=
  if s.ledHigh then .Locked else .Unlocking

/-- `setup()` (sketch.ino:149-234) as far as the modelled state goes: the
process boots with `digitalWrite(LED_PIN, HIGH)` — actuator de-energized —
and `packetCount = 0`; UDP and the web server start only afterwards, so no
command is processed before this state holds.  `fwVersion` is the version
the compiled image carries. -/
def setup (fwVersion : String) : DeviceState :=
  { ledHigh := true, packetCount := 0, runningVersion := fwVersion }

/-- Physical actuator events, in the order the pin is driven. -/
inductive ActuatorAction
  | energize        -- digitalWrite(LED_PIN, LOW)
  | deenergize      -- digitalWrite(LED_PIN, HIGH)
  deriving DecidableEq, Repr

/-- The UDP branch of `loop()` (sketch.ino:242-270) for one received
datagram whose text is `buf`: `packetCount` is incremented first; then
`"unlock"` and `"f_pressed"` each drive the actuator through a blocking
pulse — pin LOW, `delay(500)`, pin HIGH — while any other token only
updates the display.  The returned list is the trace of actuator events of
the iteration; the pulse ends inside the handler, so the pin is back HIGH
in the final state. -/
def processPacket (s : DeviceState) (buf : String) :
    DeviceState × List ActuatorAction :=
  let s1 := { s with packetCount := s.packetCount + 1 }
  if buf = "unlock" then
    ({ s1 with ledHigh := true }, [.energize, .deenergize])
  else if buf = "f_pressed" then
    ({ s1 with ledHigh := true }, [.energize, .deenergize])
  else
    (s1, [])

/-- Result of `ESPhttpUpdate.update` (t_httpUpdate_return). -/
inductive UpdRet
  | ok                                 -- HTTP_UPDATE_OK
  | noUpdates                          -- HTTP_UPDATE_NO_UPDATES
  | failed (code : Int) (err : String) -- HTTP_UPDATE_FAILED
  deriving DecidableEq, Repr

/-- Environment of one `checkForUpdate()` run: the outcome of
`testServerConnectivity()` (TCP connect to the OTA host), the result the
OTA library would return if the fetch is issued, and the version of the
image that gets installed when that result is `ok`. -/
structure UpdateEnv where
  serverReachable : Bool
  ret : UpdRet
  newVersion : String
  deriving DecidableEq, Repr

/-- Terminal outcome of one update check, per the spec's Update Agent
states: `serverUnreachable` is the Failed outcome reached from the
connectivity precheck, before any negotiation; `restarted` is
Installing followed by the unconditional `ESP.restart()`; `upToDate` is
the 304 path; `updateFailed` is a failed negotiation. -/
inductive CheckOutcome
  | serverUnreachable
  | restarted
  | upToDate
  | updateFailed
  deriving DecidableEq, Repr

/-- What one `checkForUpdate()` run did: the device state afterwards (for
`restarted`, the state the new boot starts in), whether the HTTP fetch
(`ESPhttpUpdate.update`) was issued at all, and the terminal outcome. -/
structure CheckResult where
  state : DeviceState
  fetchIssued : Bool
  outcome : CheckOutcome
  deriving DecidableEq, Repr

/-- `checkForUpdate()` (sketch.ino:89-147): if `testServerConnectivity()`
fails the function returns at once — no fetch is issued and the modelled
state is untouched (only the display changes).  Otherwise
`ESPhttpUpdate.update` runs: on `HTTP_UPDATE_OK` the device restarts into
`setup` with the freshly installed image; on `HTTP_UPDATE_NO_UPDATES` and
`HTTP_UPDATE_FAILED` control returns to the loop with the state
unchanged. -/
def checkForUpdate (env : UpdateEnv) (s : DeviceState) : CheckResult :=
  if env.serverReachable = false then
    { state := s, fetchIssued := false, outcome := .serverUnreachable }
  else
    match env.ret with
    | .ok =>
      { state := setup env.newVersion, fetchIssued := true, outcome := .restarted }
    | .noUpdates =>
      { state := s, fetchIssued := true, outcome := .upToDate }
    | .failed _ _ =>
      { state := s, fetchIssued := true, outcome := .updateFailed }

/-- Environment of one `loop()` iteration: the datagram delivered by
`udp.parsePacket` (if any), whether the OTA timer fired
(`now - lastUpdateCheck >= updateInterval || now < lastUpdateCheck`),
whether WiFi is connected after `reconnectWiFi()`, and the update
environment used if the check runs. -/
structure LoopInput where
  datagram : Option String
  timerDue : Bool
  wifiConnected : Bool
  updEnv : UpdateEnv
  deriving DecidableEq, Repr

/-- One iteration of `loop()` (sketch.ino:236-287) over the modelled
state: handle the UDP datagram if one arrived, then run the OTA check when
the timer fired and WiFi is up (when WiFi is down the check is skipped and
only the display changes). -/
def loopStep (inp : LoopInput) (s : DeviceState) :
    DeviceState × List ActuatorAction :=
  let (s1, acts) :=
    match inp.datagram with
    | some buf => processPacket s buf
    | none => (s, [])
  if inp.timerDue && inp.wifiConnected then
    ((checkForUpdate inp.updEnv s1).state, acts)
  else
    (s1, acts)

end Sketch

open OtaServer Sketch

/-- A freshly written file is found under its own version key. -/
theorem storeFind_storeInsert_self (v : String) (b : Bytes) (st : Store) :
    storeFind v (storeInsert v b st) = some b := by
  simp [storeInsert, storeFind]

/-- After removing a version's file, no file is found for that version. -/
theorem storeFind_storeRemove_self (v : String) (st : Store) :
    storeFind v (storeRemove v st) = none := by
  induction st with
  | nil => rfl
  | cons p rest ih =>
    by_cases h : p.1 = v
    · simpa [storeRemove, List.filter_cons, h] using ih
    · simpa [storeRemove, List.filter_cons, h, storeFind] using ih

/-- A version has no file exactly when no directory entry carries it. -/
theorem storeFind_eq_none_iff (v : String) (st : Store) :
    storeFind v st = none ↔ ∀ p ∈ st, p.1 ≠ v := by
  induction st with
  | nil => simp [storeFind]
  | cons q rest ih =>
    by_cases hq : q.1 = v
    · simp [storeFind, hq, ih]
    · simp [storeFind, hq, ih]

/-- When the current version has no stored file, no `/list` entry is marked
`is_latest`. -/
theorem listEntries_countP_isLatest (md5Hex : Bytes → String)
    (s' : RegistryState) (h : storeFind s'.latest s'.store = none) :
    (listEntries md5Hex s').countP (fun e => e.isLatest) = 0 := by
  refine List.countP_eq_zero.mpr ?_
  intro e he
  simp only [listEntries, List.mem_map] at he
  obtain ⟨p, hp, rfl⟩ := he
  have hne := (storeFind_eq_none_iff s'.latest s'.store).mp h p hp
  simp [hne]

/-- An update check that does not end in a successful install leaves the
modelled device state untouched. -/
theorem checkForUpdate_state_no_restart (env : UpdateEnv) (s : DeviceState)
    (h : env.serverReachable = true → env.ret ≠ UpdRet.ok) :
    (checkForUpdate env s).state = s := by
  unfold checkForUpdate
  cases hr : env.serverReachable with
  | false => simp
  | true =>
    cases hret : env.ret with
    | ok => exact absurd hret (h hr)
    | noUpdates => simp
    | failed code err => simp

/-- Every branch of the UDP handler increments `packetCount` by one. -/
theorem processPacket_packetCount (s : DeviceState) (buf : String) :
    (processPacket s buf).1.packetCount = s.packetCount + 1 := by
  by_cases h1 : buf = "unlock"
  · simp [processPacket, h1]
  · by_cases h2 : buf = "f_pressed" <;> simp [processPacket, h1, h2]

/-- C1 (amended): for a valid upload request (POST, parsable form, payload
present, non-empty version), `uploadFirmware` sets `versions.latest` to the
new version BEFORE touching the filesystem; if file creation fails, the
handler returns the 500 storage error with `currentVersion` already updated
and no payload stored, and if the write fails it returns the 500 storage
error, again with `currentVersion` updated — so upload is not atomic and
the original claim's "currentVersion is unchanged on storage error" is
false. -/
theorem C1_upload_not_atomic (env : UploadEnv) (req : UploadReq)
    (s : RegistryState) (b : Bytes) (hm : req.method = Method.POST)
    (hp : env.parseOk = true) (hb : req.payload = some b)
    (hv : req.version ≠ "") :
    (env.createOk = false →
      uploadFirmware env req s
        = ({ s with latest := req.version }, .createError)) ∧
    (env.createOk = true → env.writeOk = false →
      uploadFirmware env req s
        = ({ latest := req.version,
             store := storeInsert req.version env.truncBytes s.store },
            .writeError)) := by
  constructor
  · intro hc
    simp [uploadFirmware, hm, hp, hb, hv, hc]
  · intro hc hw
    simp [uploadFirmware, hm, hp, hb, hv, hc, hw]

/-- C1 counterexample: a POST of version "2.0.0" with a retrievable
payload on the startup state, where file creation fails, returns the
storage error yet leaves `currentVersion` changed from "1.1.0" to
"2.0.0" — refuting "no state change on error". -/
theorem C1_counterexample :
    (uploadFirmware ⟨true, false, true, []⟩
        ⟨Method.POST, "2.0.0", some [1]⟩ initialRegistry).2 = .createError ∧
    (uploadFirmware ⟨true, false, true, []⟩
        ⟨Method.POST, "2.0.0", some [1]⟩ initialRegistry).1.latest = "2.0.0" ∧
    initialRegistry.latest = "1.1.0" :=
  ⟨rfl, rfl, rfl⟩

/-- C1 witness: the amended theorem applied at the counterexample's
concrete input. -/
theorem C1_witness :
    uploadFirmware ⟨true, false, true, []⟩
        ⟨Method.POST, "2.0.0", some [1]⟩ initialRegistry
      = ({ initialRegistry with latest := "2.0.0" }, .createError) :=
  (C1_upload_not_atomic ⟨true, false, true, []⟩
      ⟨Method.POST, "2.0.0", some [1]⟩ initialRegistry [1]
      rfl rfl rfl (by decide)).1 rfl

/-- C2 (amended): a datagram whose text is neither `unlock` nor
`f_pressed` leaves the actuator pin and the lock state unchanged and
produces no actuator action (only `packetCount` is incremented).  The
original claim — no action for anything other than `unlock`/`lock` — is
false because `f_pressed` drives a full actuator pulse; `lock` itself is
an unrecognized token in the code and is a no-op. -/
theorem C2_unknown_datagram_noop (s : DeviceState) (buf : String)
    (h1 : buf ≠ "unlock") (h2 : buf ≠ "f_pressed") :
    processPacket s buf = ({ s with packetCount := s.packetCount + 1 }, []) ∧
    lockState (processPacket s buf).1 = lockState s := by
  have hps : processPacket s buf
      = ({ s with packetCount := s.packetCount + 1 }, []) := by
    simp [processPacket, h1, h2]
  refine ⟨hps, ?_⟩
  rw [hps]
  simp [lockState]

/-- C2 counterexample: `f_pressed` is neither `unlock` nor `lock`, yet
processing it produces actuator actions. -/
theorem C2_counterexample :
    "f_pressed" ≠ "unlock" ∧ "f_pressed" ≠ "lock" ∧
    (processPacket (setup "1.0.0") "f_pressed").2
      ≠ ([] : List ActuatorAction) :=
  ⟨by decide, by decide, by decide⟩

/-- C2 witness: the amended theorem applied to the (unrecognized) `lock`
token in the boot state. -/
theorem C2_witness :
    processPacket (setup "1.0.0") "lock"
        = ({ setup "1.0.0" with
              packetCount := (setup "1.0.0").packetCount + 1 }, []) ∧
    lockState (processPacket (setup "1.0.0") "lock").1
      = lockState (setup "1.0.0") :=
  C2_unknown_datagram_noop (setup "1.0.0") "lock" (by decide) (by decide)

/-- C3 (amended): with no explicit version filter, when the client version
equals the registry's (non-empty) `currentVersion` AND the current
version's image is actually stored, `getFirmware` answers 304 NotModified
with no body; with an explicit `requestedVersion` it serves exactly that
stored image or 404, never 304.  The original claim omitted the "image is
stored" condition: the existence check precedes the 304 short-circuit, so
a matching client version with a missing current image yields 404. -/
theorem C3_fetch_modes (md5Hex : Bytes → String) (s : RegistryState)
    (cv rv : String) :
    (∀ b, s.latest ≠ "" → storeFind s.latest s.store = some b →
      cv = s.latest →
      getFirmware md5Hex ⟨Method.GET, "", cv⟩ s = .notModified) ∧
    (rv ≠ "" →
      getFirmware md5Hex ⟨Method.GET, rv, cv⟩ s
        = (match storeFind rv s.store with
            | none => FetchResult.notFound
            | some b => FetchResult.payload b (md5Hex b))) ∧
    (rv ≠ "" →
      getFirmware md5Hex ⟨Method.GET, rv, cv⟩ s ≠ .notModified) := by
  refine ⟨?_, ?_, ?_⟩
  · intro b _ hfind hcv
    simp [getFirmware, hfind, hcv]
  · intro hrv
    simp [getFirmware, hrv]
  · intro hrv
    simp only [getFirmware]
    simp [hrv]
    cases storeFind rv s.store with
    | none => simp
    | some b => simp

/-- C3 counterexample: on the startup state the current version is the
non-empty "1.1.0" but no image is stored; an unfiltered fetch whose
client version equals the current version returns 404, not 304. -/
theorem C3_counterexample :
    initialRegistry.latest = "1.1.0" ∧
    getFirmware (fun _ => "") ⟨Method.GET, "", "1.1.0"⟩ initialRegistry
      = .notFound ∧
    getFirmware (fun _ => "") ⟨Method.GET, "", "1.1.0"⟩ initialRegistry
      ≠ .notModified :=
  ⟨rfl, rfl, by decide⟩

/-- C3 witness: the amended theorem at a registry holding version
"2.0.0": the matching unfiltered fetch yields 304, and an explicit fetch
of an absent version yields 404. -/
theorem C3_witness :
    getFirmware (fun b => toString b.length) ⟨Method.GET, "", "2.0.0"⟩
        ⟨"2.0.0", [("2.0.0", [7])]⟩ = .notModified ∧
    getFirmware (fun b => toString b.length) ⟨Method.GET, "9.9.9", "2.0.0"⟩
        ⟨"2.0.0", [("2.0.0", [7])]⟩ = .notFound :=
  ⟨(C3_fetch_modes (fun b => toString b.length) ⟨"2.0.0", [("2.0.0", [7])]⟩
      "2.0.0" "9.9.9").1 [7] (by decide) rfl rfl,
   (C3_fetch_modes (fun b => toString b.length) ⟨"2.0.0", [("2.0.0", [7])]⟩
      "2.0.0" "9.9.9").2.1 (by decide)⟩

/-- C4 (amended): upload rejects — with no state change — when the
payload is absent or when the version field is empty, and succeeds
otherwise (given a POST, a parsable form and a healthy filesystem) for a
payload of ANY size: the `10 << 20` passed to `ParseMultipartForm` is the
in-memory buffering threshold of Go's multipart parser, not a size
ceiling, so the original claim's 10 MiB rejection does not exist. -/
theorem C4_upload_checks (env : UploadEnv) (req : UploadReq)
    (s : RegistryState) (hm : req.method = Method.POST)
    (hp : env.parseOk = true) :
    (req.payload = none → uploadFirmware env req s = (s, .noFile)) ∧
    (∀ b, req.payload = some b → req.version = "" →
      uploadFirmware env req s = (s, .noVersion)) ∧
    (∀ b, req.payload = some b → req.version ≠ "" →
      env.createOk = true → env.writeOk = true →
      uploadFirmware env req s
        = ({ latest := req.version,
             store := storeInsert req.version b s.store }, .ok)) := by
  refine ⟨?_, ?_, ?_⟩
  · intro hb
    simp [uploadFirmware, hm, hp, hb]
  · intro b hb hv
    simp [uploadFirmware, hm, hp, hb, hv]
  · intro b hb hv hc hw
    simp [uploadFirmware, hm, hp, hb, hv, hc, hw]

/-- C4 counterexample: a payload of 10 MiB + 1 bytes — strictly above the
claimed ceiling — is accepted. -/
theorem C4_counterexample :
    10 * 2 ^ 20 < (List.replicate (10 * 2 ^ 20 + 1) (0 : Nat)).length ∧
    (uploadFirmware ⟨true, true, true, []⟩
        ⟨Method.POST, "2.0.0", some (List.replicate (10 * 2 ^ 20 + 1) 0)⟩
        initialRegistry).2 = .ok := by
  constructor
  · rw [List.length_replicate]
    exact Nat.lt_succ_self _
  · rfl

/-- C4 witness: the amended theorem at a concrete rejected upload (empty
version field). -/
theorem C4_witness :
    uploadFirmware ⟨true, true, true, []⟩ ⟨Method.POST, "", some [5]⟩
        initialRegistry = (initialRegistry, .noVersion) :=
  (C4_upload_checks ⟨true, true, true, []⟩ ⟨Method.POST, "", some [5]⟩
      initialRegistry rfl rfl).2.1 [5] rfl rfl

/-- C5: the device boots — `setup()` and likewise the restart that follows
a successful install — with the actuator pin driven HIGH (de-energized),
lock state `Locked` and a zeroed packet counter; commands are only
processed by `loop()`, which runs after `setup()` completes, so the secure
default holds before any command can be handled. -/
theorem C5_boot_secure (v : String) (env : UpdateEnv) (s : DeviceState) :
    ((setup v).ledHigh = true ∧ lockState (setup v) = LockState.Locked ∧
      (setup v).packetCount = 0) ∧
    (env.serverReachable = true → env.ret = UpdRet.ok →
      (checkForUpdate env s).state = setup env.newVersion ∧
      lockState (checkForUpdate env s).state = LockState.Locked) := by
  refine ⟨⟨rfl, rfl, rfl⟩, ?_⟩
  intro hr hok
  have h1 : checkForUpdate env s
      = { state := setup env.newVersion, fetchIssued := true,
          outcome := CheckOutcome.restarted } := by
    simp [checkForUpdate, hr, hok]
  rw [h1]
  exact ⟨rfl, rfl⟩

/-- C5 witness: an update check that installs version "2.0.0" restarts the
device into the locked boot state. -/
theorem C5_witness :
    (checkForUpdate ⟨true, UpdRet.ok, "2.0.0"⟩ (setup "1.0.0")).state
        = setup "2.0.0" ∧
    lockState (checkForUpdate ⟨true, UpdRet.ok, "2.0.0"⟩
        (setup "1.0.0")).state = LockState.Locked :=
  (C5_boot_secure "1.0.0" ⟨true, UpdRet.ok, "2.0.0"⟩ (setup "1.0.0")).2 rfl rfl

/-- C6 (amended): for every NON-EMPTY version, delete returns Ack and
removes the stored image if it exists and 404 NotFound otherwise, never
touching `currentVersion` — even when the deleted version equals
`currentVersion`, after which `list()` marks zero entries `is_latest` and
an unfiltered fetch returns 404.  The original claim's "NotFound
otherwise" fails for the empty version string, which the handler rejects
with 400 BadRequest before consulting the store. -/
theorem C6_delete_behavior (v cv : String) (s : RegistryState)
    (md5Hex : Bytes → String) (hv : v ≠ "") :
    ((deleteFirmware ⟨Method.DELETE, v⟩ s).1.latest = s.latest) ∧
    (storeFind v s.store = none →
      deleteFirmware ⟨Method.DELETE, v⟩ s = (s, .notFound)) ∧
    (∀ b, storeFind v s.store = some b →
      deleteFirmware ⟨Method.DELETE, v⟩ s
          = ({ s with store := storeRemove v s.store }, .ok) ∧
      storeFind v (deleteFirmware ⟨Method.DELETE, v⟩ s).1.store = none) ∧
    (∀ b, storeFind v s.store = some b → v = s.latest →
      listFirmware md5Hex Method.GET (deleteFirmware ⟨Method.DELETE, v⟩ s).1
          = .ok s.latest
              (listEntries md5Hex (deleteFirmware ⟨Method.DELETE, v⟩ s).1) ∧
      (listEntries md5Hex (deleteFirmware ⟨Method.DELETE, v⟩ s).1).countP
          (fun e => e.isLatest) = 0 ∧
      getFirmware md5Hex ⟨Method.GET, "", cv⟩
          (deleteFirmware ⟨Method.DELETE, v⟩ s).1 = .notFound) := by
  have hdel : ∀ b, storeFind v s.store = some b →
      deleteFirmware ⟨Method.DELETE, v⟩ s
        = ({ s with store := storeRemove v s.store }, .ok) := by
    intro b hb
    simp [deleteFirmware, hv, hb]
  refine ⟨?_, ?_, ?_, ?_⟩
  · cases hfind : storeFind v s.store with
    | none => simp [deleteFirmware, hv, hfind]
    | some b => rw [hdel b hfind]
  · intro hfind
    simp [deleteFirmware, hv, hfind]
  · intro b hb
    refine ⟨hdel b hb, ?_⟩
    rw [hdel b hb]
    exact storeFind_storeRemove_self v s.store
  · intro b hb hlat
    have hnone : storeFind s.latest (storeRemove v s.store) = none := by
      rw [← hlat]
      exact storeFind_storeRemove_self v s.store
    rw [hdel b hb]
    refine ⟨by simp [listFirmware], ?_, ?_⟩
    · exact listEntries_countP_isLatest md5Hex _ hnone
    · simp [getFirmware, hnone]

/-- C6 counterexample: deleting with an empty version string answers 400
BadRequest, not the 404 NotFound the claim requires for a version with no
stored image. -/
theorem C6_counterexample :
    storeFind "" initialRegistry.store = none ∧
    (deleteFirmware ⟨Method.DELETE, ""⟩ initialRegistry).2 = .noVersion ∧
    (deleteFirmware ⟨Method.DELETE, ""⟩ initialRegistry).2
      ≠ DeleteResult.notFound :=
  ⟨rfl, rfl, by decide⟩

/-- C6 witness: deleting the current version "2.0.0" keeps
`currentVersion`, empties the `is_latest` marks and makes the unfiltered
fetch 404. -/
theorem C6_witness :
    (deleteFirmware ⟨Method.DELETE, "2.0.0"⟩
        (⟨"2.0.0", [("2.0.0", [7])]⟩ : RegistryState)).1.latest
      = (⟨"2.0.0", [("2.0.0", [7])]⟩ : RegistryState).latest ∧
    (listEntries (fun b => toString b.length)
        (deleteFirmware ⟨Method.DELETE, "2.0.0"⟩
          (⟨"2.0.0", [("2.0.0", [7])]⟩ : RegistryState)).1).countP
        (fun e => e.isLatest) = 0 ∧
    getFirmware (fun b => toString b.length) ⟨Method.GET, "", "1.0.0"⟩
        (deleteFirmware ⟨Method.DELETE, "2.0.0"⟩
          (⟨"2.0.0", [("2.0.0", [7])]⟩ : RegistryState)).1 = .notFound :=
  ⟨(C6_delete_behavior "2.0.0" "1.0.0" ⟨"2.0.0", [("2.0.0", [7])]⟩
      (fun b => toString b.length) (by decide)).1,
   (((C6_delete_behavior "2.0.0" "1.0.0" ⟨"2.0.0", [("2.0.0", [7])]⟩
      (fun b => toString b.length) (by decide)).2.2.2) [7] rfl rfl).2.1,
   (((C6_delete_behavior "2.0.0" "1.0.0" ⟨"2.0.0", [("2.0.0", [7])]⟩
      (fun b => toString b.length) (by decide)).2.2.2) [7] rfl rfl).2.2⟩

/-- C7: uploading version V with payload B (healthy filesystem) and then
fetching with no version filter and a client version different from V
returns exactly B, with the `x-MD5` integrity header equal to the hash
function applied to B itself — for EVERY hash function, since the header
is recomputed from the stored bytes on demand rather than cached. -/
theorem C7_upload_fetch_roundtrip (md5Hex : Bytes → String)
    (env : UploadEnv) (V cv : String) (B : Bytes) (s : RegistryState)
    (hV : V ≠ "") (hcv : cv ≠ V) (hp : env.parseOk = true)
    (hc : env.createOk = true) (hw : env.writeOk = true) :
    getFirmware md5Hex ⟨Method.GET, "", cv⟩
        (uploadFirmware env ⟨Method.POST, V, some B⟩ s).1
      = .payload B (md5Hex B) := by
  have hup : (uploadFirmware env ⟨Method.POST, V, some B⟩ s).1
      = { latest := V, store := storeInsert V B s.store } := by
    simp [uploadFirmware, hp, hV, hc, hw]
  rw [hup]
  simp [getFirmware, storeInsert, storeFind, hcv]

/-- C7 witness: upload version "3.0.0" with bytes `[1, 2]`, fetch with
client version "0.9.0": the body is `[1, 2]` and the header is the hash
of `[1, 2]`. -/
theorem C7_witness :
    getFirmware (fun b => toString b.length) ⟨Method.GET, "", "0.9.0"⟩
        (uploadFirmware ⟨true, true, true, []⟩
          ⟨Method.POST, "3.0.0", some [1, 2]⟩ initialRegistry).1
      = .payload [1, 2] ((fun b : Bytes => toString b.length) [1, 2]) :=
  C7_upload_fetch_roundtrip (fun b => toString b.length) ⟨true, true, true, []⟩
    "3.0.0" "0.9.0" [1, 2] initialRegistry (by decide) (by decide) rfl rfl rfl

/-- C8: when the connectivity precheck fails, `checkForUpdate` returns at
once in the Failed-without-negotiation outcome: no fetch request is ever
issued (`ESPhttpUpdate.update` is not called) and the device state —
including `runningVersion` — is unchanged. -/
theorem C8_unreachable_failed (env : UpdateEnv) (s : DeviceState)
    (h : env.serverReachable = false) :
    checkForUpdate env s
        = { state := s, fetchIssued := false,
            outcome := CheckOutcome.serverUnreachable } ∧
    (checkForUpdate env s).state.runningVersion = s.runningVersion := by
  have h1 : checkForUpdate env s
      = { state := s, fetchIssued := false,
          outcome := CheckOutcome.serverUnreachable } := by
    simp [checkForUpdate, h]
  exact ⟨h1, by rw [h1]⟩

/-- C8 witness: the theorem at a concrete unreachable-server check. -/
theorem C8_witness :
    checkForUpdate ⟨false, UpdRet.noUpdates, ""⟩ (setup "1.0.0")
      = { state := setup "1.0.0", fetchIssued := false,
          outcome := CheckOutcome.serverUnreachable } :=
  (C8_unreachable_failed ⟨false, UpdRet.noUpdates, ""⟩ (setup "1.0.0") rfl).1

/-- C9: from a locked state, the `unlock` datagram produces the actuator
trace [energize, deenergize] (the 500 ms pulse elapses inside the same
blocking handler), increments the device's counter (`packetCount`, the
spec's `unlockCount`) by exactly 1, and ends with the lock state `Locked`
again. -/
theorem C9_unlock_sequence (s : DeviceState)
    (h : lockState s = LockState.Locked) :
    (processPacket s "unlock").2
        = [ActuatorAction.energize, ActuatorAction.deenergize] ∧
    (processPacket s "unlock").1.packetCount = s.packetCount + 1 ∧
    lockState (processPacket s "unlock").1 = LockState.Locked ∧
    (processPacket s "unlock").1.runningVersion = s.runningVersion :=
  ⟨rfl, rfl, rfl, rfl⟩

/-- C9 witness: the theorem at the boot state. -/
theorem C9_witness :
    (processPacket (setup "1.0.0") "unlock").2
        = [ActuatorAction.energize, ActuatorAction.deenergize] ∧
    (processPacket (setup "1.0.0") "unlock").1.packetCount
        = (setup "1.0.0").packetCount + 1 ∧
    lockState (processPacket (setup "1.0.0") "unlock").1
        = LockState.Locked ∧
    (processPacket (setup "1.0.0") "unlock").1.runningVersion
        = (setup "1.0.0").runningVersion :=
  C9_unlock_sequence (setup "1.0.0") rfl

/-- C10: every received UDP datagram — recognized or not — increments
`packetCount` by exactly 1, and a loop iteration that does not end in a
restart (the end of the process lifetime) never decreases it: with a
datagram the counter rises by exactly 1, without one it is unchanged. -/
theorem C10_packet_counter (s : DeviceState) (buf : String)
    (inp : LoopInput) :
    (processPacket s buf).1.packetCount = s.packetCount + 1 ∧
    ((inp.timerDue = true → inp.wifiConnected = true →
        inp.updEnv.serverReachable = true → inp.updEnv.ret ≠ UpdRet.ok) →
      s.packetCount ≤ (loopStep inp s).1.packetCount ∧
      ∀ b, inp.datagram = some b →
        (loopStep inp s).1.packetCount = s.packetCount + 1) := by
  refine ⟨processPacket_packetCount s buf, ?_⟩
  intro hno
  have hstate : ∀ s1 : DeviceState,
      (inp.timerDue && inp.wifiConnected) = true →
      (checkForUpdate inp.updEnv s1).state = s1 := by
    intro s1 htw
    obtain ⟨ht, hw⟩ : inp.timerDue = true ∧ inp.wifiConnected = true := by
      simpa using htw
    exact checkForUpdate_state_no_restart inp.updEnv s1
      (fun hr => hno ht hw hr)
  cases hd : inp.datagram with
  | none =>
    have hkeep : (loopStep inp s).1 = s := by
      simp only [loopStep, hd]
      cases htw : inp.timerDue && inp.wifiConnected with
      | false => simp
      | true => simp [hstate s htw]
    refine ⟨by rw [hkeep], ?_⟩
    intro b hb
    exact absurd hb (by simp)
  | some b0 =>
    have hcount : (loopStep inp s).1.packetCount = s.packetCount + 1 := by
      have hpc := processPacket_packetCount s b0
      rcases hpp : processPacket s b0 with ⟨s1, acts⟩
      rw [hpp] at hpc
      simp only [loopStep, hd, hpp]
      cases htw : inp.timerDue && inp.wifiConnected with
      | false => simpa using hpc
      | true => simpa [hstate s1 htw] using hpc
    refine ⟨by rw [hcount]; exact Nat.le_succ _, ?_⟩
    intro b _
    exact hcount

/-- C10 witness: the theorem at a concrete malformed datagram with the
OTA timer idle. -/
theorem C10_witness :
    (loopStep ⟨some "hello", false, false, ⟨false, UpdRet.noUpdates, ""⟩⟩
        (setup "1.0.0")).1.packetCount = (setup "1.0.0").packetCount + 1 :=
  ((C10_packet_counter (setup "1.0.0") "hello"
      ⟨some "hello", false, false, ⟨false, UpdRet.noUpdates, ""⟩⟩).2
    (by intro ht _ _ _; exact absurd ht (by decide))).2 "hello" rfl
